import Mathlib

/-!
Verification of the `extended-jsonschema-py` Draft-04 validator core.

This file shallowly embeds the parts of the source relevant to the frozen
claims and settles each claim with a theorem:

* the JSON value model and the Python-level semantics the source relies on
  (exact `type()` tags, Python `==` which conflates `True`/`1`/`1.0`,
  hashability, `%` raising `ZeroDivisionError` on a zero divisor);
* the compiled keyword rules of `src/extendedjsonschema/schemas/draft_04/keywords.py`
  (`type`, `enum`, `anyOf`, `pattern`, `additionalItems`, `patternProperties`,
  `multipleOf`) as executable Lean functions taking `(path, value, errors)`;
* the program-building pipeline of `src/extendedjsonschema/schemas/draft_04/schema.py`
  (keyword collection order, dead-rule pruning, general/type-specific split);
* the type-test lowering of `src/extendedjsonschema/optimizer.py` on a small
  statement language mirroring the generated rule bodies;
* the module-level name resolution of the Draft-04 keyword registry import.

Regular expressions appear in the source only through `re.compile(p).match`.
The embedding models the metacharacter-free fragment: for a literal pattern
`p`, Python `re.match(p, s)` succeeds exactly when `p` is a prefix of `s`,
so `reMatchLit` is a faithful translation on that fragment, and every concrete
pattern used in a theorem below is metacharacter-free.
-/

namespace ExtJS

/-! ### JSON values (`src/extendedjsonschema/utils.py` JSON type)

A parsed JSON tree as the Python implementation sees it: `null` ↦ `None`,
`bool` ↦ `bool`, `int` ↦ `int`, `num` ↦ `float`, `str` ↦ `str`,
`arr` ↦ `list`, `obj` ↦ `dict` (insertion-ordered, so a list of pairs).
Floats are modelled exactly (ℚ); no claim below depends on rounding. -/
inductive JSON where
  | null
  | bool (b : Bool)
  | int (n : Int)
  | num (q : Rat)
  | str (s : String)
  | arr (xs : List JSON)
  | obj (kvs : List (String × JSON))

/-- A path token: an object key or an array index (`List[Union[str, int]]`). -/
inductive Tok where
  | s (key : String)
  | i (idx : Nat)
deriving DecidableEq, Repr

abbrev Path := List Tok

/-- An error record (`utils.Error`): instance path plus the originating
keyword, which we identify by its `name`. -/
structure Err where
  path : Path
  keyword : String
deriving DecidableEq, Repr

/-- The Python runtime exceptions that the compiled rules can actually raise. -/
inductive PyErr where
  | typeError
  | zeroDivisionError
deriving DecidableEq, Repr

/-- Outcome of a keyword's `validate()` method: normal return, `SchemaError`,
or an uncaught Python exception. -/
inductive ValidateResult where
  | ok
  | schemaError (msg : String)
  | pyError (e : PyErr)
deriving DecidableEq, Repr

/-! ### Python-level semantics -/

/-- The Python classes JSON values can have: `type(x)` for a parsed value. -/
inductive PyType where
  | noneType
  | bool
  | int
  | float
  | str
  | list
  | dict
deriving DecidableEq, Repr

/-- Python `type(value)` on a parsed JSON tree.  Exact: `type(True)` is
`bool`, not `int`, and `type(5)` is `int`, not `float`. -/
def pyTypeOf : JSON → PyType
  | .null => .noneType
  | .bool _ => .bool
  | .int _ => .int
  | .num _ => .float
  | .str _ => .str
  | .arr _ => .list
  | .obj _ => .dict

/-- Python `isinstance(value, T)`: like `type(value) == T` except that `bool`
is a subclass of `int`, so `isinstance(True, int)` is `True`. -/
def pyIsInstance (v : JSON) (t : PyType) : Bool :=
  pyTypeOf v == t || (pyTypeOf v == .bool && t == .int)

/-- Python's numeric view: `bool`, `int` and `float` compare by value
(`True == 1`, `1 == 1.0`); other values have no numeric view. -/
def viewNum : JSON → Option Rat
  | .bool b => some (if b then 1 else 0)
  | .int n => some (n : Rat)
  | .num q => some q
  | _ => none

/-- First-match association lookup: Python `dict[k]` / `k in dict` on an
insertion-ordered mapping with unique keys. -/
def lookupKV : List (String × JSON) → String → Option JSON
  | [], _ => none
  | (k, v) :: rest, key => if k == key then some v else lookupKV rest key

/-- Keys of an insertion-ordered mapping, in order (`dict.keys()`). -/
def keysOf (kvs : List (String × JSON)) : List String := kvs.map (·.1)

mutual
/-- Python `==` on parsed JSON values: numeric kinds compare by value
(so `True == 1` and `1 == 1.0`), strings and `None` by identity of kind and
content, lists elementwise, dicts by key set and per-key values. -/
def pyEq : JSON → JSON → Bool
  | a, b =>
    match viewNum a, viewNum b with
    | some x, some y => x == y
    | _, _ =>
      match a, b with
      | .null, .null => true
      | .str s, .str t => s == t
      | .arr xs, .arr ys => xs.length == ys.length && pyEqList xs ys
      | .obj kvs1, .obj kvs2 =>
          (keysOf kvs1).all (fun k => (keysOf kvs2).contains k) &&
          (keysOf kvs2).all (fun k => (keysOf kvs1).contains k) &&
          pyEqObj kvs1 kvs2
      | _, _ => false
def pyEqList : List JSON → List JSON → Bool
  | [], _ => true
  | x :: xs, ys =>
    match ys with
    | [] => false
    | y :: ys2 => pyEq x y && pyEqList xs ys2
def pyEqObj : List (String × JSON) → List (String × JSON) → Bool
  | [], _ => true
  | (k, v) :: rest, kvs2 =>
    (match lookupKV kvs2 k with
     | some v2 => pyEq v v2
     | none => false) && pyEqObj rest kvs2
end

/-- Python hashability of a parsed JSON value: `list` and `dict` are
unhashable, so `hash()` — and hence `value in some_set` — raises `TypeError`
on them. -/
def pyHashable : JSON → Bool
  | .arr _ => false
  | .obj _ => false
  | _ => true

mutual
/-- `tools.is_equal` (`src/extendedjsonschema/tools.py`): the source's own
recursive structural equality.  The leading `t1 != t2` test compares exact
Python types, so values of different tags (e.g. `True` vs `1`, `1` vs `1.0`)
are never equal; lists compare by length and elementwise; dicts by key set
and per-key values (order irrelevant). -/
def isEqual : JSON → JSON → Bool
  | d1, d2 =>
    if pyTypeOf d1 != pyTypeOf d2 then false
    else
      match d1, d2 with
      | .arr xs, .arr ys => xs.length == ys.length && isEqualList xs ys
      | .obj kvs1, .obj kvs2 =>
          (keysOf kvs1).all (fun k => (keysOf kvs2).contains k) &&
          (keysOf kvs2).all (fun k => (keysOf kvs1).contains k) &&
          isEqualObj kvs1 kvs2
      | a, b => pyEq a b
def isEqualList : List JSON → List JSON → Bool
  | [], _ => true
  | x :: xs, ys =>
    match ys with
    | [] => false
    | y :: ys2 => isEqual x y && isEqualList xs ys2
def isEqualObj : List (String × JSON) → List (String × JSON) → Bool
  | [], _ => true
  | (k, v) :: rest, kvs2 =>
    (match lookupKV kvs2 k with
     | some v2 => isEqual v v2
     | none => false) && isEqualObj rest kvs2
end

/-! ### The `type` keyword (`draft_04/keywords.py`, class `Type`) -/

namespace TypeKw

/-- `Type.valid_types` (keywords.py lines 14–22): tag string ↦ Python class.
Note `"integer" ↦ int` and `"number" ↦ float`. -/
def validTypes : String → Option PyType
  | "array" => some .list
  | "boolean" => some .bool
  | "integer" => some .int
  | "null" => some .noneType
  | "number" => some .float
  | "object" => some .dict
  | "string" => some .str
  | _ => none

/-- `Type.program` (keywords.py lines 46–48): the rule compiled for a single
tag string; `_compiled_value` is the Python class from `valid_types`. -/
def program (compiled : PyType) (path : Path) (value : JSON) (errors : List Err) : List Err :=
  if pyTypeOf value != compiled then errors ++ [⟨path, "type"⟩] else errors

/-- `Type.program_list` (keywords.py lines 50–52): the rule compiled for a
list of tag strings; `_compiled_value` is the set of Python classes. -/
def programList (compiled : List PyType) (path : Path) (value : JSON) (errors : List Err) : List Err :=
  if !(compiled.contains (pyTypeOf value)) then errors ++ [⟨path, "type"⟩] else errors

end TypeKw

/-- Claim C1 (code_bug evidence).  `Type.valid_types` maps `"number"` to the
Python class `float`, and the compiled rule tests `type(value) != float`
exactly; so against a configured `"number"` the integer instance `5` is
*rejected* (one error at the current path) although the claim — and Draft-04 —
say `number` accepts `Int` instances; `5.0` is accepted.  The same holds for
the list form `["number"]`. -/
theorem c1_type_number_rejects_int :
    TypeKw.validTypes "number" = some PyType.float ∧
    TypeKw.program PyType.float [] (JSON.int 5) [] = [⟨[], "type"⟩] ∧
    TypeKw.programList [PyType.float] [] (JSON.int 5) [] = [⟨[], "type"⟩] ∧
    TypeKw.program PyType.float [] (JSON.num 5) [] = [] := by
  refine ⟨rfl, ?_, ?_, ?_⟩ <;> decide

/-! ### The `enum` keyword (`draft_04/keywords.py`, class `Enum`) -/

namespace EnumKw

/-- Number of distinct elements under Python `==`: `len(set(l))` for a list
of hashable elements (Python hashes agree on values that compare equal). -/
def distinctCount (l : List JSON) : Nat :=
  (l.foldl (fun acc x => if acc.any (pyEq x) then acc else acc ++ [x]) []).length

/-- `Enum.validate` (keywords.py lines 71–77), checks in source order: not a
list, empty, then `len(self.value) != len(set(self.value))` — whose `set(...)`
call raises `TypeError` first when an element is unhashable. -/
def validate (value : JSON) : ValidateResult :=
  match value with
  | .arr l =>
    if l.isEmpty then .schemaError "It must be an array with at least one element"
    else if l.any (fun x => !pyHashable x) then .pyError .typeError
    else if l.length != distinctCount l then
      .schemaError "It must be an array, where each element is unique"
    else .ok
  | _ => .schemaError "It must be an array"

/-- `Enum.program` (keywords.py lines 80–82) with `_enum_values = set(self.value)`
from `compile` (lines 84–86): `value not in self._enum_values` hashes the
instance first — `TypeError` on a list or dict instance — and otherwise tests
membership by Python `==` against the elements. -/
def program (vals : List JSON) (path : Path) (value : JSON) (errors : List Err) :
    Except PyErr (List Err) :=
  if !pyHashable value then .error .typeError
  else if vals.any (fun e => pyEq value e) then .ok errors
  else .ok (errors ++ [⟨path, "enum"⟩])

end EnumKw

/-- Claim C3 (code_bug evidence).  The schema `{"enum": [1]}` passes schema
validation, yet the compiled rule accepts the instance `true` (Python set
membership uses `==`, and `True == 1`) and the instance `1.0` (`1.0 == 1`),
although by the source's own structural equality `tools.is_equal` — the
recursive equality of spec §3.1 — `Bool(true)` and `Num(1.0)` are not equal
to `Int(1)`, so the claim requires an error to be appended for both. -/
theorem c3_enum_uses_python_equality :
    EnumKw.validate (JSON.arr [JSON.int 1]) = ValidateResult.ok ∧
    EnumKw.program [JSON.int 1] [] (JSON.bool true) [] = Except.ok [] ∧
    isEqual (JSON.bool true) (JSON.int 1) = false ∧
    EnumKw.program [JSON.int 1] [] (JSON.num 1) [] = Except.ok [] ∧
    isEqual (JSON.num 1) (JSON.int 1) = false :=
  ⟨by decide, rfl, by decide, rfl, by decide⟩

/-! ### The `multipleOf` keyword (`draft_04/keywords.py`, class `MultipleOf`) -/

namespace MultipleOfKw

/-- `MultipleOf.validate` (keywords.py lines 417–421): rejects non-`int`
configured values and values `< 0`.  Note the boundary: `0` passes, although
the error message reads "strictly greater than 0". -/
def validate (value : JSON) : ValidateResult :=
  match value with
  | .int n =>
    if n < 0 then .schemaError "It must be strictly greater than 0" else .ok
  | _ => .schemaError "It must be an integer"

/-- Python `%` on exact non-integer numbers with a nonzero divisor (floored
modulo; Lean `Int.emod` plays this role for integers below). -/
def ratMod (a m : Rat) : Rat := a - m * ⌊a / m⌋

/-- `MultipleOf.program` (keywords.py lines 423–425): `value % self.value != 0`
appends an error.  Python `%` dispatches on the value's class (`bool` is an
`int`) and raises `ZeroDivisionError` when the configured value is `0` — a
value `validate` admits; for the validated range `m ≥ 0` the integer case is
Lean's `Int.emod`. -/
def program (m : Int) (path : Path) (value : JSON) (errors : List Err) :
    Except PyErr (List Err) :=
  match value with
  | .int n =>
    if m == 0 then .error .zeroDivisionError
    else if n.emod m != 0 then .ok (errors ++ [⟨path, "multipleOf"⟩])
    else .ok errors
  | .bool b =>
    if m == 0 then .error .zeroDivisionError
    else if (if b then (1 : Int) else 0).emod m != 0 then .ok (errors ++ [⟨path, "multipleOf"⟩])
    else .ok errors
  | .num q =>
    if m == 0 then .error .zeroDivisionError
    else if ratMod q (m : Rat) != 0 then .ok (errors ++ [⟨path, "multipleOf"⟩])
    else .ok errors
  | _ => .error .typeError

end MultipleOfKw

/-- Claim C8 (code_bug evidence).  Two schemas that pass schema validation
compile to rules that raise instead of appending: `{"multipleOf": 0}` passes
`validate` (the test is `self.value < 0`) but its rule raises
`ZeroDivisionError` on the instance `4`; `{"enum": [1]}` passes `validate`
but its rule raises `TypeError` on the array instance `[]` (an unhashable
value cannot be tested for set membership). -/
theorem c8_rules_can_raise :
    MultipleOfKw.validate (JSON.int 0) = ValidateResult.ok ∧
    MultipleOfKw.program 0 [] (JSON.int 4) [] = Except.error PyErr.zeroDivisionError ∧
    MultipleOfKw.program 3 [] (JSON.int 4) [] = Except.ok [⟨[], "multipleOf"⟩] ∧
    EnumKw.validate (JSON.arr [JSON.int 1]) = ValidateResult.ok ∧
    EnumKw.program [JSON.int 1] [] (JSON.arr []) [] = Except.error PyErr.typeError :=
  ⟨by decide, rfl, rfl, by decide, rfl⟩

/-! ### The `anyOf` keyword (`draft_04/keywords.py`, class `AnyOf`) -/

namespace AnyOfKw

/-- One branch sub-Program of `anyOf`, modelled by what `p.run(path, value, e)`
appends to the fresh scratch accumulator `e = []`. -/
abbrev Branch := Path → JSON → List Err

/-- The loop of `AnyOf.program` (keywords.py lines 136–145): each branch runs
against a fresh scratch list `e`; an errorless branch `return`s immediately,
leaving the parent accumulator untouched; otherwise the scratch `errs`
collects every branch's errors and `errors.extend(errs)` appends them after
the loop. -/
def loop (path : Path) (value : JSON) (errors : List Err) :
    List Branch → List Err → List Err
  | [], errs => errors ++ errs
  | p :: ps, errs =>
    let e := p path value
    if e.isEmpty then errors else loop path value errors ps (errs ++ e)

/-- `AnyOf.program` (keywords.py lines 136–145). -/
def program (progs : List Branch) (path : Path) (value : JSON)
    (errors : List Err) : List Err :=
  loop path value errors progs []

/-- If some branch produces no errors on a fresh accumulator, the loop
returns the parent accumulator unchanged. -/
theorem loop_of_success (path : Path) (v : JSON) (errors : List Err)
    (ps : List Branch) (errs : List Err) (h : ∃ p ∈ ps, p path v = []) :
    loop path v errors ps errs = errors := by
  induction ps generalizing errs with
  | nil => simp at h
  | cons p ps ih =>
    by_cases hp : p path v = []
    · simp [loop, hp]
    · rcases h with ⟨q, hq, hq2⟩
      rcases List.mem_cons.mp hq with rfl | hmem
      · exact absurd hq2 hp
      · simp only [loop, List.isEmpty_iff, if_neg hp]
        exact ih _ ⟨q, hmem, hq2⟩

/-- If every branch produces errors, the loop appends the branches' errors
after the scratch collected so far. -/
theorem loop_of_failure (path : Path) (v : JSON) (errors : List Err)
    (ps : List Branch) (errs : List Err) (h : ∀ p ∈ ps, p path v ≠ []) :
    loop path v errors ps errs = errors ++ errs ++ (ps.map (fun p => p path v)).flatten := by
  induction ps generalizing errs with
  | nil => simp [loop]
  | cons p ps ih =>
    have hp : p path v ≠ [] := h p (List.mem_cons_self p ps)
    simp only [loop, List.isEmpty_iff, if_neg hp]
    rw [ih _ (fun q hq => h q (List.mem_cons_of_mem p hq))]
    simp [List.append_assoc]

end AnyOfKw

/-- Claim C2 (confirmed).  For every compiled `anyOf` keyword (branch
sub-Programs modelled by what they append to a fresh accumulator), every
instance and every pre-existing parent accumulator: if some branch produces
no errors, `AnyOf.program` returns the parent accumulator exactly as it was
(its scratch is discarded, nothing is removed or reordered); otherwise it
appends every branch's errors, in branch order. -/
theorem c2_anyOf_discards_only_scratch (progs : List AnyOfKw.Branch)
    (path : Path) (v : JSON) (errors : List Err) :
    ((∃ p ∈ progs, p path v = []) →
      AnyOfKw.program progs path v errors = errors) ∧
    ((∀ p ∈ progs, p path v ≠ []) →
      AnyOfKw.program progs path v errors =
        errors ++ (progs.map (fun p => p path v)).flatten) := by
  constructor
  · intro h
    exact AnyOfKw.loop_of_success path v errors progs [] h
  · intro h
    rw [AnyOfKw.program, AnyOfKw.loop_of_failure path v errors progs [] h]
    simp

/-- Witness for C2: a concrete `anyOf` with a failing first branch and an
errorless second branch leaves the parent accumulator untouched. -/
theorem c2_anyOf_discards_only_scratch_witness :
    AnyOfKw.program [fun _ _ => [⟨[], "minimum"⟩], fun _ _ => []] []
      (JSON.int 3) [⟨[], "maximum"⟩] = [⟨[], "maximum"⟩] :=
  (c2_anyOf_discards_only_scratch _ _ _ _).1 ⟨fun _ _ => [], by simp, rfl⟩

/-! ### The `pattern` keyword (`draft_04/keywords.py`, class `Pattern`) -/

/-- Prefix test on character lists. -/
def leadsString : List Char → List Char → Bool
  | [], _ => true
  | _ :: _, [] => false
  | c :: cs, d :: ds => c == d && leadsString cs ds

/-- Python `re.compile(pat).match(s)` for a metacharacter-free pattern `pat`:
`re.match` is anchored at the start of the string, so a literal pattern
matches exactly when it is a prefix of `s`. -/
def reMatchLit (pat s : String) : Bool := leadsString pat.toList s.toList

namespace PatternKw

/-- `Pattern.program` (keywords.py lines 793–795) with `_prog` set by
`compile` (lines 797–799): appends an error when `self._prog.match(value)`
fails. -/
def program (pat : String) (path : Path) (value : String) (errors : List Err) : List Err :=
  if !reMatchLit pat value then errors ++ [⟨path, "pattern"⟩] else errors

end PatternKw

/-- Claim C5 (code_bug evidence).  The compiled `pattern` rule uses
`re.match`, which anchors at the start of the string: for the
(metacharacter-free) pattern `"b"` and instance `"ab"` the rule appends an
error even though the pattern occurs within the string (at position 1,
witnessed by the infix decomposition), while on `"ba"` — a prefix match —
no error is appended. -/
theorem c5_pattern_match_is_anchored :
    PatternKw.program "b" [] "ab" [] = [⟨[], "pattern"⟩] ∧
    List.IsInfix "b".toList "ab".toList ∧
    PatternKw.program "b" [] "ba" [] = [] := by
  refine ⟨by decide, ⟨['a'], [], by decide⟩, by decide⟩

/-! ### The `patternProperties` keyword (class `PatternProperties`) -/

/-- A compiled sub-Program's `run`, as an append-only rule over the shared
error accumulator. -/
abbrev SubProgram := Path → JSON → List Err → List Err

namespace PatternPropsKw

/-- Compiled state of `PatternProperties`: the `_properties` skip set and the
`_programs` mapping pattern ↦ (its match test, its compiled sub-Program). -/
structure Compiled where
  properties : List String
  programs : List (String × SubProgram)

/-- The skip-set assignment in `PatternProperties.compile` (keywords.py lines
582–584): when a sibling `properties` keyword exists,
`_properties = set(self.rules.keys())` — the *names of the sibling keywords
in the schema*, not the keys of the `properties` mapping. -/
def compileSkip (ruleNames : List String) : List String :=
  if ruleNames.contains "properties" then ruleNames else []

/-- `PatternProperties.program` (keywords.py lines 571–580): skip members
whose key is in `_properties`; otherwise run the sub-Program of the *first*
pattern whose `re_prog(k)` succeeds — the inner loop `break`s after it. -/
def program (c : Compiled) (path : Path) (value : List (String × JSON))
    (errors : List Err) : List Err :=
  value.foldl
    (fun errs kv =>
      if c.properties.contains kv.1 then errs
      else
        match c.programs.find? (fun pp => reMatchLit pp.1 kv.1) with
        | some pp => pp.2 (path ++ [Tok.s kv.1]) kv.2 errs
        | none => errs)
    errors

end PatternPropsKw

/-- The compiled sub-Program of the sub-schema `{"type": "integer"}`: a single
general `type` rule. -/
def typeIntSub : SubProgram := fun path v errs => TypeKw.program PyType.int path v errs

/-- The compiled sub-Program of the sub-schema `{"type": "string"}`. -/
def typeStrSub : SubProgram := fun path v errs => TypeKw.program PyType.str path v errs

/-- Claim C4 (code_bug evidence).  With sibling keywords
`{"properties": {"a": …}, "patternProperties": {"p": {"type": "integer"}}}`,
the compiled skip set is the keyword-name set `{"properties",
"patternProperties"}`, so the instance member named `"patternProperties"` is
skipped entirely (no error) even though it is not a key of the `properties`
mapping and the pattern `"p"` matches it and its sub-Program would emit an
error.  Moreover with two patterns `"a"` and `"ab"` both matching the member
key `"abc"`, only the first matching sub-Program runs: the result carries one
`type` error, although the second sub-Program alone would also emit one. -/
theorem c4_patternProperties_skips_and_breaks :
    PatternPropsKw.compileSkip ["properties", "patternProperties"] =
      ["properties", "patternProperties"] ∧
    PatternPropsKw.program ⟨["properties", "patternProperties"], [("p", typeIntSub)]⟩
      [] [("patternProperties", JSON.str "s")] [] = [] ∧
    reMatchLit "p" "patternProperties" = true ∧
    lookupKV [("a", JSON.obj [("type", JSON.str "string")])] "patternProperties" = none ∧
    typeIntSub [Tok.s "patternProperties"] (JSON.str "s") [] =
      [⟨[Tok.s "patternProperties"], "type"⟩] ∧
    PatternPropsKw.program ⟨[], [("a", typeIntSub), ("ab", typeStrSub)]⟩
      [] [("abc", JSON.null)] [] = [⟨[Tok.s "abc"], "type"⟩] ∧
    reMatchLit "ab" "abc" = true ∧
    typeStrSub [Tok.s "abc"] JSON.null [] = [⟨[Tok.s "abc"], "type"⟩] := by
  refine ⟨by decide, by decide, by decide, rfl, by decide, by decide, by decide, by decide⟩

/-! ### The `additionalItems` keyword (class `AdditionalItems`) -/

namespace AdditionalItemsKw

/-- `_items_tuple_programs` as set by `AdditionalItems.compile` (keywords.py
lines 292–294): the length of the sibling `items` value when that value is a
list (array-form), `0` otherwise.  `rules` is the sibling keyword map as raw
`(name, value)` pairs. -/
def itemsTupleLen (rules : List (String × JSON)) : Nat :=
  match lookupKV rules "items" with
  | some (.arr l) => l.length
  | _ => 0

/-- `AdditionalItems.false_program` (keywords.py lines 282–285): one error per
index from `_items_tuple_programs` up to `len(value) - 1`, in ascending
order. -/
def falseProgram (k : Nat) (path : Path) (value : List JSON) (errors : List Err) : List Err :=
  if value.length > k then
    (List.range' k (value.length - k)).foldl
      (fun errs i => errs ++ [⟨path ++ [Tok.i i], "additionalItems"⟩]) errors
  else errors

/-- `AdditionalItems.program` (keywords.py lines 287–290): run the compiled
sub-Program on each element with index ≥ `_items_tuple_programs`. -/
def program (k : Nat) (sub : SubProgram) (path : Path) (value : List JSON)
    (errors : List Err) : List Err :=
  if value.length > k then
    (List.range' k (value.length - k)).foldl
      (fun errs i => sub (path ++ [Tok.i i]) (value.getD i JSON.null) errs) errors
  else errors

/-- Shape of `AdditionalItems.compile`'s result (keywords.py lines 292–305):
`True` (or an empty compiled sub-Program) emits no rule, `False` emits
`false_program`, and a schema object emits `program` with the compiled
sub-Program of the carried sub-schema. -/
inductive CompiledAI where
  | omitted
  | falseRule (k : Nat)
  | schemaRule (k : Nat) (subSchema : JSON)

/-- `AdditionalItems.compile` (keywords.py lines 292–305), up to the compiled
sub-Program of the dict case (carried as the raw sub-schema). -/
def compile (rules : List (String × JSON)) (value : JSON) : CompiledAI :=
  let k := itemsTupleLen rules
  match value with
  | .bool true => .omitted
  | .bool false => .falseRule k
  | v => .schemaRule k v

end AdditionalItemsKw

/-- Counterexample for C6.  The claim states that when there is no array-form
`items` sibling the rule is a no-op that appends nothing for any instance;
but with no `items` sibling at all, `{"additionalItems": false}` compiles to
`false_program` with threshold `0`, which appends an error at index `0` for
the instance `[null]`. -/
theorem c6_counterexample_false_without_items_fires :
    AdditionalItemsKw.compile [] (JSON.bool false) = AdditionalItemsKw.CompiledAI.falseRule 0 ∧
    AdditionalItemsKw.falseProgram 0 [] [JSON.null] [] = [⟨[Tok.i 0], "additionalItems"⟩] :=
  ⟨rfl, by decide⟩

/-- Appending one element per list entry commutes into a single map-append. -/
theorem foldl_append_singleton {α : Type} (f : α → Err) :
    ∀ (l : List α) (errors : List Err),
      l.foldl (fun e x => e ++ [f x]) errors = errors ++ l.map f
  | [], errors => by simp
  | x :: l, errors => by
    rw [List.foldl_cons, foldl_append_singleton f l (errors ++ [f x])]
    simp

/-- Claim C6 (amended).  With `k` the length of the sibling array-form `items`
list and `k = 0` when there is no array-form `items` sibling: a configured
`true` emits no rule; a configured `false` appends exactly one error per
index ≥ `k` (characterised both as a closed form over `range'` and by
membership); a configured schema object runs its sub-Program successively on
each element with index ≥ `k`. -/
theorem c6_additionalItems_semantics :
    (∀ rules, AdditionalItemsKw.compile rules (JSON.bool true) =
      AdditionalItemsKw.CompiledAI.omitted) ∧
    (∀ rules l, lookupKV rules "items" = some (JSON.arr l) →
      AdditionalItemsKw.itemsTupleLen rules = l.length) ∧
    (∀ rules, lookupKV rules "items" = none →
      AdditionalItemsKw.itemsTupleLen rules = 0) ∧
    (∀ k path xs errors, AdditionalItemsKw.falseProgram k path xs errors =
      errors ++ (List.range' k (xs.length - k)).map
        (fun i => (⟨path ++ [Tok.i i], "additionalItems"⟩ : Err))) ∧
    (∀ k path xs i,
      (⟨path ++ [Tok.i i], "additionalItems"⟩ : Err) ∈
          AdditionalItemsKw.falseProgram k path xs [] ↔ k ≤ i ∧ i < xs.length) ∧
    (∀ k sub path xs errors, xs.length ≤ k →
      AdditionalItemsKw.program k sub path xs errors = errors) ∧
    (∀ k sub path xs errors, k < xs.length →
      AdditionalItemsKw.program k sub path xs errors =
        AdditionalItemsKw.program (k + 1) sub path xs
          (sub (path ++ [Tok.i k]) (xs.getD k JSON.null) errors)) := by
  have hfalse : ∀ k path xs errors, AdditionalItemsKw.falseProgram k path xs errors =
      errors ++ (List.range' k (xs.length - k)).map
        (fun i => (⟨path ++ [Tok.i i], "additionalItems"⟩ : Err)) := by
    intro k path xs errors
    unfold AdditionalItemsKw.falseProgram
    by_cases h : xs.length > k
    · rw [if_pos h, foldl_append_singleton]
    · rw [if_neg h]
      have : xs.length - k = 0 := by omega
      simp [this]
  refine ⟨fun rules => rfl, ?_, ?_, hfalse, ?_, ?_, ?_⟩
  · intro rules l h
    unfold AdditionalItemsKw.itemsTupleLen
    rw [h]
  · intro rules h
    unfold AdditionalItemsKw.itemsTupleLen
    rw [h]
  · intro k path xs i
    rw [hfalse]
    simp only [List.nil_append, List.mem_map, List.mem_range'_1]
    constructor
    · rintro ⟨j, hj, hj2⟩
      have : j = i := by
        have := congrArg Err.path hj2
        simpa using this
      omega
    · intro h
      exact ⟨i, by omega, rfl⟩
  · intro k sub path xs errors h
    unfold AdditionalItemsKw.program
    rw [if_neg (by omega)]
  · intro k sub path xs errors h
    unfold AdditionalItemsKw.program
    rw [if_pos (by omega)]
    have hk : xs.length - k = (xs.length - (k + 1)) + 1 := by omega
    rw [hk]
    by_cases h2 : xs.length > k + 1
    · rw [if_pos h2]
      rfl
    · rw [if_neg h2]
      have : xs.length - (k + 1) = 0 := by omega
      rw [this]
      rfl

/-- Witness for C6: `k` is read off an array-form `items` sibling of length 1,
and the schema-object rule with threshold 1 runs the `{"type": "integer"}`
sub-Program on index 1 only of `[7, "x"]`, producing its one `type` error. -/
theorem c6_additionalItems_semantics_witness :
    AdditionalItemsKw.itemsTupleLen [("items", JSON.arr [JSON.obj []])] = 1 ∧
    AdditionalItemsKw.program 1 typeIntSub [] [JSON.int 7, JSON.str "x"] [] =
      [⟨[Tok.i 1], "type"⟩] := by
  obtain ⟨h1, h2, h3, h4, h5, h6, h7⟩ := c6_additionalItems_semantics
  refine ⟨h2 [("items", JSON.arr [JSON.obj []])] [JSON.obj []] rfl, ?_⟩
  rw [h7 1 typeIntSub [] [JSON.int 7, JSON.str "x"] [] (by decide)]
  rw [h6 2 typeIntSub [] [JSON.int 7, JSON.str "x"] _ (by decide)]
  decide

/-! ### Program building (`draft_04/schema.py`, class `Schema`) -/

/-- A compiled rule `(path, value, errors) ↦ errors`, in `Except` because some
compiled rules can raise (see C8). -/
abbrev RULE := Path → JSON → List Err → Except PyErr (List Err)

/-- The dialect's keyword table in declaration order (draft_04/schema.py lines
46–80).  The table registers `Dependencies.name`, but no `Dependencies` class
exists in the keywords module (claim C10); following the pattern of every
other entry its registered name would be `"dependencies"`. -/
def draft04TableNames : List String :=
  ["enum", "type", "allOf", "anyOf", "oneOf", "not",
   "items", "additionalItems", "minItems", "maxItems", "uniqueItems",
   "minimum", "maximum", "multipleOf", "exclusiveMinimum", "exclusiveMaximum",
   "properties", "patternProperties", "additionalProperties", "required",
   "minProperties", "maxProperties", "dependencies",
   "minLength", "maxLength", "format", "pattern"]

/-- Each keyword class's `type` applicability attribute (keywords.py);
`[]` for the general keywords whose classes set no `type`. -/
def applicabilityOf : String → List String
  | "items" | "additionalItems" | "minItems" | "maxItems" | "uniqueItems" => ["array"]
  | "minimum" | "maximum" | "multipleOf"
  | "exclusiveMinimum" | "exclusiveMaximum" => ["integer", "number"]
  | "properties" | "patternProperties" | "additionalProperties"
  | "required" | "minProperties" | "maxProperties" => ["object"]
  | "minLength" | "maxLength" | "format" | "pattern" => ["string"]
  | _ => []

/-- Keyword collection (`Schema.program`, schema.py lines 130–133): iterate
the *schema's* key/value pairs in their own order, keeping those whose key is
in the dialect table — the keywords dict is built in schema insertion order,
not in table order. -/
def recognizedItems (schema : List (String × JSON)) : List (String × JSON) :=
  schema.filter (fun kv => draft04TableNames.contains kv.1)

/-- `Schema._type_definition` (schema.py lines 87–94); `validate()` has
already restricted a present `type` value to a tag string or a list of tag
strings. -/
def typeDefinition (keywords : List (String × JSON)) : List String :=
  match lookupKV keywords "type" with
  | some (.str t) => [t]
  | some (.arr l) => l.filterMap (fun x => match x with | .str s => some s | _ => none)
  | _ => []

/-- Dead-rule pruning, `Schema._delete_unused_keywords` (schema.py lines
96–105): with a non-empty declared type set, drop every keyword whose
applicability is non-empty and disjoint from it (dict deletion keeps the
order of the remaining entries). -/
def pruneKeywords (keywords : List (String × JSON)) : List (String × JSON) :=
  let td := typeDefinition keywords
  if td.isEmpty then keywords
  else
    keywords.filter (fun kv =>
      (applicabilityOf kv.1).isEmpty || (applicabilityOf kv.1).any (fun t => td.contains t))

/-- Per-keyword rule compilation for the non-recursive keywords embedded in
this file.  The combinator keywords whose `compile` builds sub-Programs
(`allOf`, `anyOf`, `oneOf`, `not`, `items`, `additionalItems`, the object
keywords) are embedded and analysed standalone above; they are omitted here,
which is harmless for the ordering claims since these quantify over names. -/
def compileKeyword (name : String) (value : JSON) : Option RULE :=
  match name, value with
  | "type", .str t =>
    (TypeKw.validTypes t).map
      (fun pt => fun path v errs => Except.ok (TypeKw.program pt path v errs))
  | "type", .arr ts =>
    some (fun path v errs => Except.ok (TypeKw.programList
      (ts.filterMap (fun x => match x with | .str s => TypeKw.validTypes s | _ => none))
      path v errs))
  | "enum", .arr l => some (fun path v errs => EnumKw.program l path v errs)
  | "pattern", .str p =>
    some (fun path v errs =>
      match v with
      | .str sv => Except.ok (PatternKw.program p path sv errs)
      | _ => Except.ok errs)
  | "multipleOf", .int m => some (fun path v errs => MultipleOfKw.program m path v errs)
  | _, _ => none

/-- A general keyword's compiled rule, or `none` for typed keywords. -/
def generalCompile (name : String) (value : JSON) : Option RULE :=
  if (applicabilityOf name).isEmpty then compileKeyword name value else none

/-- A typed keyword's compiled rule for tag `t` under declared type set `td`
(the membership tests of `Schema._program`, schema.py lines 114–117). -/
def typedCompile (td : List String) (t : String) (name : String) (value : JSON) : Option RULE :=
  if (applicabilityOf name).contains t && (td.isEmpty || td.contains t) then
    compileKeyword name value
  else none

/-- The IR node (`Program`): ordered general rules and a type-keyed table of
ordered type-specific rules; each rule keeps its keyword's name.  The bucket
*contents* are in keyword insertion order as in the source's `defaultdict`
appends; the bucket keys are looked up by tag, so their own order is
irrelevant to `run`. -/
structure Program where
  general : List (String × RULE)
  typeSpecific : List (PyType × List (String × RULE))

/-- The seven instance tags, used to materialise the bucket table. -/
def allTags : List String :=
  ["array", "boolean", "integer", "null", "number", "object", "string"]

/-- `Schema._program` (schema.py lines 107–119): split the surviving keywords
into general rules and per-tag rule lists, iterating keywords in their
insertion order. -/
def buildProgram (kws : List (String × JSON)) : Program :=
  let td := typeDefinition kws
  { general := kws.filterMap (fun kv => (generalCompile kv.1 kv.2).map (fun r => (kv.1, r)))
  , typeSpecific := allTags.filterMap (fun tag =>
      match TypeKw.validTypes tag with
      | some pt =>
        let rules := kws.filterMap
          (fun kv => (typedCompile td tag kv.1 kv.2).map (fun r => (kv.1, r)))
        if rules.isEmpty then none else some (pt, rules)
      | none => none) }

/-- `Schema.program` (schema.py lines 121–140) for a non-empty schema object:
collect recognized keywords in schema order, prune, and split. -/
def compileProgram (schema : List (String × JSON)) : Program :=
  buildProgram (pruneKeywords (recognizedItems schema))

/-- Run a rule list in order, threading the accumulator. -/
def runRules (rules : List (String × RULE)) (path : Path) (v : JSON)
    (errors : List Err) : Except PyErr (List Err) :=
  rules.foldlM (fun errs r => r.2 path v errs) errors

/-- The rule bucket for a tag, `[]` when absent. -/
def lookupBucket (ts : List (PyType × List (String × RULE))) (t : PyType) :
    List (String × RULE) :=
  match ts.find? (fun kv => kv.1 == t) with
  | some kv => kv.2
  | none => []

/-- Modelled from the spec: the interpreted `Program.run(path, value, errors)`
(spec §4.3) — the `Program` class in `src/extendedjsonschema/program.py` is
the code-generating variant and carries no `run`, although
`validator.py` invokes `self._program.run([], data, errors)`; the spec defines
it as: all general rules in order, then the rules of `type_specific[tag(value)]`
in order. -/
def Program.run (p : Program) (path : Path) (v : JSON) (errors : List Err) :
    Except PyErr (List Err) := do
  let e ← runRules p.general path v errors
  runRules (lookupBucket p.typeSpecific (pyTypeOf v)) path v e

/-- Names of a `filterMap`-compiled rule list form a sublist of the names of
the keyword list it was built from. -/
theorem names_filterMap_sublist {β : Type} (l : List (String × JSON))
    (g : String → JSON → Option β) :
    ((l.filterMap (fun kv => (g kv.1 kv.2).map (fun r => (kv.1, r)))).map Prod.fst).Sublist
      (l.map Prod.fst) := by
  induction l with
  | nil => simp
  | cons kv l ih =>
    simp only [List.filterMap_cons, List.map_cons]
    cases h : g kv.1 kv.2 with
    | none => exact ih.cons _
    | some r => simpa using ih.cons₂ kv.1

/-- Pruning keeps a sublist of the keywords. -/
theorem pruneKeywords_sublist (l : List (String × JSON)) :
    (pruneKeywords l).Sublist l := by
  unfold pruneKeywords
  by_cases h : (typeDefinition l).isEmpty
  · simp only [h, if_true]
    exact List.Sublist.refl l
  · simp only [h, if_false]
    exact List.filter_sublist l

/-- Claim C7 (amended).  The iteration order of a compiled program's `general`
list and of each `type_specific` bucket is deterministic and follows the
order in which the keywords appear in the schema object: both name sequences
are sublists of the schema's own key sequence, and any two schemas with the
same recognized `(key, value)` sequence compile to the same program. -/
theorem c7_program_order :
    (∀ schema : List (String × JSON),
      (((compileProgram schema).general).map Prod.fst).Sublist (schema.map Prod.fst)) ∧
    (∀ (schema : List (String × JSON)) (t : PyType) (rules : List (String × RULE)),
      (t, rules) ∈ (compileProgram schema).typeSpecific →
      (rules.map Prod.fst).Sublist (schema.map Prod.fst)) ∧
    (∀ s1 s2 : List (String × JSON), recognizedItems s1 = recognizedItems s2 →
      compileProgram s1 = compileProgram s2) := by
  have hrec : ∀ schema : List (String × JSON),
      ((recognizedItems schema).map Prod.fst).Sublist (schema.map Prod.fst) :=
    fun schema => (List.filter_sublist schema).map Prod.fst
  have hkws : ∀ schema : List (String × JSON),
      ((pruneKeywords (recognizedItems schema)).map Prod.fst).Sublist (schema.map Prod.fst) :=
    fun schema =>
      (((pruneKeywords_sublist (recognizedItems schema)).map Prod.fst).trans (hrec schema))
  refine ⟨?_, ?_, ?_⟩
  · intro schema
    exact (names_filterMap_sublist _ generalCompile).trans (hkws schema)
  · intro schema t rules hmem
    rcases List.mem_filterMap.mp hmem with ⟨tag, -, hf⟩
    cases hval : TypeKw.validTypes tag with
    | none => rw [hval] at hf; exact absurd hf (by simp)
    | some pt =>
      rw [hval] at hf
      simp only [] at hf
      split at hf
      · exact absurd hf (by simp)
      · rcases Option.some.inj hf with h2
        have hrules : rules =
            (pruneKeywords (recognizedItems schema)).filterMap
              (fun kv => (typedCompile (typeDefinition (pruneKeywords (recognizedItems schema))) tag kv.1 kv.2).map
                (fun r => (kv.1, r))) := by
          have := congrArg Prod.snd h2
          exact this.symm
        rw [hrules]
        exact (names_filterMap_sublist _ _).trans (hkws schema)
  · intro s1 s2 h
    unfold compileProgram
    rw [h]

/-- Witness for C7: adding an unrecognized key leaves the recognized sequence
— hence the compiled program — unchanged, and the general rule order of a
concrete schema follows that schema's key order. -/
theorem c7_program_order_witness :
    compileProgram [("enum", JSON.arr [JSON.int 2]), ("type", JSON.str "string")] =
      compileProgram [("enum", JSON.arr [JSON.int 2]), ("type", JSON.str "string"),
        ("unknownKeyword", JSON.null)] ∧
    (((compileProgram [("enum", JSON.arr [JSON.int 2]), ("type", JSON.str "string")]).general).map
      Prod.fst).Sublist ["enum", "type"] := by
  obtain ⟨h1, h2, h3⟩ := c7_program_order
  exact ⟨h3 _ _ rfl, h1 [("enum", JSON.arr [JSON.int 2]), ("type", JSON.str "string")]⟩

/-- Counterexample for C7.  Two schemas holding the same two keywords in
different key orders: the general rule order follows the schema order
(`["enum", "type"]` vs `["type", "enum"]`), the second differs from the
dialect table's declaration order over those keywords, and the two compiled
programs emit their two errors for the instance `5` in different orders —
the claim predicts identical, table-ordered sequences for both. -/
theorem c7_counterexample_order_follows_schema :
    ((compileProgram [("enum", JSON.arr [JSON.int 2]), ("type", JSON.str "string")]).general.map
      Prod.fst) = ["enum", "type"] ∧
    ((compileProgram [("type", JSON.str "string"), ("enum", JSON.arr [JSON.int 2])]).general.map
      Prod.fst) = ["type", "enum"] ∧
    draft04TableNames.filter (fun n => (["type", "enum"] : List String).contains n) =
      ["enum", "type"] ∧
    (["type", "enum"] : List String) ≠ ["enum", "type"] ∧
    Program.run (compileProgram [("enum", JSON.arr [JSON.int 2]), ("type", JSON.str "string")])
      [] (JSON.int 5) [] = Except.ok [⟨[], "enum"⟩, ⟨[], "type"⟩] ∧
    Program.run (compileProgram [("type", JSON.str "string"), ("enum", JSON.arr [JSON.int 2])])
      [] (JSON.int 5) [] = Except.ok [⟨[], "type"⟩, ⟨[], "enum"⟩] ∧
    ([(⟨[], "enum"⟩ : Err), ⟨[], "type"⟩] : List Err) ≠ [⟨[], "type"⟩, ⟨[], "enum"⟩] := by
  refine ⟨by decide, by decide, by decide, by decide, rfl, rfl, by decide⟩

/-! ### The optimizer's type-test lowering (`optimizer.py`, class `Optimizer`)

The optimizer rewrites the generated rule bodies, whose relevant statements
are `if`-statements over type tests and `errors.append(...)` calls (see
`Program._body` / `Compiler.ast_body`, which emit `if type(value) == T:` /
`if type(value) != T:` around rule code).  `OptStmt` is that fragment. -/

/-- A test in a generated `if`: a `type(value)` comparison against a class,
or its lowered `isinstance` form. -/
inductive OptTest where
  | typeIs (t : PyType)
  | typeIsNot (t : PyType)
  | isInst (t : PyType)
  | notIsInst (t : PyType)
deriving DecidableEq, Repr

/-- A statement of a generated rule body. -/
inductive OptStmt where
  | ifThen (c : OptTest) (body : List OptStmt)
  | append (e : Err)

/-- Python evaluation of a test against the data value. -/
def evalTest (d : JSON) : OptTest → Bool
  | .typeIs t => pyTypeOf d == t
  | .typeIsNot t => pyTypeOf d != t
  | .isInst t => pyIsInstance d t
  | .notIsInst t => !pyIsInstance d t

mutual
/-- Execution of one generated statement over the `errors` accumulator. -/
def runStmt : OptStmt → JSON → List Err → List Err
  | .append e, _, errs => errs ++ [e]
  | .ifThen c body, d, errs => if evalTest d c then runStmts body d errs else errs
/-- Execution of a generated body, statements in order. -/
def runStmts : List OptStmt → JSON → List Err → List Err
  | [], _, errs => errs
  | s :: rest, d, errs => runStmts rest d (runStmt s d errs)
end

mutual
/-- `Optimizer._count_type_calling`: occurrences of `type(...)` calls in the
`if` tests of a body. -/
def countTypeTests : List OptStmt → Nat
  | [] => 0
  | s :: rest => countTypeTestsStmt s + countTypeTests rest
def countTypeTestsStmt : OptStmt → Nat
  | .append _ => 0
  | .ifThen c body =>
    (match c with | .typeIs _ => 1 | .typeIsNot _ => 1 | _ => 0) + countTypeTests body
end

/-- The `ast.Eq`/`ast.NotEq` lowering of `Optimizer.__replace_type_calling`
(optimizer.py lines 32–58), applied when the test's `type(...)` argument is
counted exactly once: `type(x) == T` becomes `isinstance(x, T)` and
`type(x) != T` becomes `not isinstance(x, T)`. -/
def lowerTest : OptTest → OptTest
  | .typeIs t => .isInst t
  | .typeIsNot t => .notIsInst t
  | c => c

mutual
/-- Apply the single-use lowering to every type test of a body. -/
def lowerStmts : List OptStmt → List OptStmt
  | [] => []
  | s :: rest => lowerStmt s :: lowerStmts rest
def lowerStmt : OptStmt → OptStmt
  | .append e => .append e
  | .ifThen c body => .ifThen (lowerTest c) (lowerStmts body)
end

/-- `Optimizer._type_calling` as driven by `Optimizer.run` (optimizer.py lines
128–132): when the count of `type(...)` test occurrences is exactly `1`, the
test is lowered to an `isinstance` check; when it is greater the source hoists
`type(data)` into a local variable, which preserves semantics (the variable
holds exactly `type(data)`) and is modelled as the identity. -/
def optimizeTypeCalling (body : List OptStmt) : List OptStmt :=
  if countTypeTests body == 1 then lowerStmts body else body

/-- The generated body of the rule compiled for `{"type": "integer"}`:
`if type(value) != int: errors.append(error)` (see `TypeKw.program` and the
code emission in `Program._body`). -/
def genTypeIntBody : List OptStmt :=
  [OptStmt.ifThen (OptTest.typeIsNot PyType.int) [OptStmt.append ⟨[], "type"⟩]]

/-- Claim C9 (code_bug evidence).  The optimizer lowers the single type test
of the `{"type": "integer"}` rule body to `not isinstance(value, int)`; on
the boolean instance `True` the unoptimized body emits the `type` error
(`type(True) != int`) while the optimized body emits nothing
(`isinstance(True, int)` holds, since `bool` subclasses `int`), so the
rewrite changes the observable error sequence; on the instance `7` the two
bodies agree. -/
theorem c9_isinstance_lowering_not_pure :
    optimizeTypeCalling genTypeIntBody =
      [OptStmt.ifThen (OptTest.notIsInst PyType.int) [OptStmt.append ⟨[], "type"⟩]] ∧
    runStmts genTypeIntBody (JSON.bool true) [] = [⟨[], "type"⟩] ∧
    runStmts (optimizeTypeCalling genTypeIntBody) (JSON.bool true) [] = [] ∧
    pyIsInstance (JSON.bool true) PyType.int = true ∧
    runStmts genTypeIntBody (JSON.int 7) [] =
      runStmts (optimizeTypeCalling genTypeIntBody) (JSON.int 7) [] := by
  refine ⟨rfl, by decide, by decide, by decide, by decide⟩

/-! ### The Draft-04 registry import (`draft_04/schema.py` lines 9–37) -/

/-- The names the registry module imports from
`extendedjsonschema.schemas.draft_04.keywords` (schema.py lines 9–37). -/
def draft04ImportedKeywordNames : List String :=
  ["AdditionalItems", "AdditionalProperties", "AllOf", "AnyOf", "Dependencies",
   "Enum", "ExclusiveMaximum", "ExclusiveMinimum", "Format", "Items",
   "Maximum", "MaxItems", "MaxLength", "MaxProperties", "Minimum", "MinItems",
   "MinLength", "MinProperties", "MultipleOf", "Not", "OneOf", "Pattern",
   "PatternProperties", "Properties", "Required", "Type", "UniqueItems"]

/-- The class names actually defined in
`src/extendedjsonschema/schemas/draft_04/keywords.py`. -/
def keywordsModuleClassNames : List String :=
  ["Type", "Enum", "AllOf", "AnyOf", "OneOf", "Not",
   "Items", "AdditionalItems", "MinItems", "MaxItems", "UniqueItems",
   "MultipleOf", "Minimum", "Maximum", "ExclusiveMinimum", "ExclusiveMaximum",
   "Properties", "PatternProperties", "AdditionalProperties", "Required",
   "MinProperties", "MaxProperties",
   "MinLength", "MaxLength", "Pattern", "Format"]

/-- Python `from … import (names)` succeeds exactly when every requested name
is defined in the imported module; otherwise it raises `ImportError` before
the importing module body runs. -/
def registryImportResolves : Bool :=
  draft04ImportedKeywordNames.all (fun n => keywordsModuleClassNames.contains n)

/-- Claim C10 (confirmed).  The Draft-04 registry's `import` list names
`Dependencies`, which is not among the classes defined in the keywords
module, so the name resolution fails: the registry module never loads and no
schema can construct the Draft-04 dialect compiler. -/
theorem c10_dependencies_import_never_resolves :
    registryImportResolves = false ∧
    "Dependencies" ∈ draft04ImportedKeywordNames ∧
    "Dependencies" ∉ keywordsModuleClassNames := by
  refine ⟨by decide, by decide, by decide⟩

end ExtJS
